import Mathlib

/-!
Verification of the F5-TTS HTTP server (`src/f5_tts/api_server.py`).

The development shallowly embeds the request-handling pipeline of the
server: the request model `TTSRequest` (lines 19-32), the character store
`_scan_characters` (lines 90-102) and `_get_character_paths`
(lines 104-118), the parameter configuration defaults (lines 126-129),
and the `/tts` endpoint handler `text_to_speech` (lines 139-191).

The filesystem is modelled as a finite list of entries (directories and
UTF-8 text files), paths as lists of segments below the filesystem root.
POSIX path resolution of `..` segments, performed by the operating system
when a path is checked for existence or opened, is modelled by `normSegs`.
Python `pathlib` joining (the `/` operator) is modelled by `pathJoin`:
the right operand is split on `/` (empty and single-dot segments dropped,
as `pathlib` does when parsing) and appended, unless it is absolute, in
which case it replaces the left operand entirely.

Floats that the source merely carries around (`top_k`, `speed`, ...) are
modelled as rationals; their default values in the source are exact
decimal literals, which the rationals represent exactly.
-/

/-- Entry of the modelled filesystem: a directory at a (normalised)
segment path, or a regular file with decoded UTF-8 text content. -/
inductive FSEntry : Type
  | dir : List String → FSEntry
  | file : List String → String → FSEntry
deriving DecidableEq, Repr

/-- A filesystem is a finite list of entries, paths stored in normal form
(no `..`, `.` or empty segments). -/
abbrev FS := List FSEntry

/-- Splitting a character list at every `/`, keeping empty pieces (the
behaviour of `str.split` on a single separator). -/
def splitSlashAux : List Char → List Char → List String
  | [], acc => [String.mk acc.reverse]
  | c :: rest, acc =>
    if c = '/' then String.mk acc.reverse :: splitSlashAux rest []
    else splitSlashAux rest (c :: acc)

/-- Splitting a path string into segments, as `pathlib` parses a path
fragment: split on `/`, drop empty segments and single-dot segments
(`PurePosixPath` removes both when parsing; `..` is kept). -/
def pySplitSegs (s : String) : List String :=
  (splitSlashAux s.data []).filter (fun t => t ≠ "" && t ≠ ".")

/-- Whether a path string is absolute (leading `/`). -/
def pyIsAbsolute (s : String) : Bool :=
  s.data.head? = some '/'

/-- Joining, as the `pathlib` `/` operator: an absolute right operand
replaces the left operand, otherwise its segments are appended.
No sanitisation happens: `..` segments pass through untouched. -/
def pathJoin (root : List String) (s : String) : List String :=
  if pyIsAbsolute s then pySplitSegs s else root ++ pySplitSegs s

/-- One step of POSIX `..` resolution: a `..` segment removes the
preceding segment (at the filesystem root it is a no-op, as `/.. = /`). -/
def normStep (acc : List String) (s : String) : List String :=
  if s = ".." then acc.dropLast else acc ++ [s]

/-- POSIX resolution of `..` segments, applied by the operating system
when a path is stat-ed or opened. -/
def normSegs (p : List String) : List String :=
  p.foldl normStep []

/-- Whether a directory exists at path `p` (after OS-level resolution). -/
def isDirFS (fs : FS) (p : List String) : Bool :=
  fs.any fun e =>
    match e with
    | .dir q => decide (normSegs p = q)
    | .file _ _ => false

/-- Content of the regular file at path `p` (after OS-level resolution),
if one exists. -/
def lookupFile (fs : FS) (p : List String) : Option String :=
  fs.findSome? fun e =>
    match e with
    | .dir _ => none
    | .file q c => if normSegs p = q then some c else none

/-- Python `Path.exists()`: true for directories and regular files. -/
def existsFS (fs : FS) (p : List String) : Bool :=
  isDirFS fs p || (lookupFile fs p).isSome

/-- Python `str.strip()` with no argument: remove surrounding whitespace.
Modelled with the Lean whitespace predicate (space, tab, CR, LF), which
covers every character the claims exercise. -/
def pyStrip (s : String) : String :=
  String.mk (((s.data.dropWhile Char.isWhitespace).reverse.dropWhile
    Char.isWhitespace).reverse)

/-- The directory probed for character `c`: `self.character_dir / character`
(api_server.py line 107). -/
def charDirPath (root : List String) (c : String) : List String :=
  pathJoin root c

/-- The reference-audio path probed for character `c`:
`char_dir / "ref.wav"` (api_server.py line 108). -/
def charWavPath (root : List String) (c : String) : List String :=
  charDirPath root c ++ ["ref.wav"]

/-- The reference-text path probed for character `c`:
`char_dir / "ref.txt"` (api_server.py line 109). -/
def charTxtPath (root : List String) (c : String) : List String :=
  charDirPath root c ++ ["ref.txt"]

/-- Embedding of `TTSServer._get_character_paths` (api_server.py
lines 104-118). Returns `.ok none` when the directory or either
reference file is missing (the Python function returns `(None, None)`);
otherwise reads `ref.txt` fully as UTF-8 and strips it, returning the
reference-audio path and the stripped text. The `.error` branch models
the exception `open()` raises when the probed `ref.txt` path exists but
is not a regular file; the exact exception text is not modelled. -/
def getCharacterPaths (fs : FS) (root : List String) (character : String) :
    Except String (Option (List String × String)) :=
  let cd := charDirPath root character
  if existsFS fs cd && existsFS fs (charWavPath root character)
      && existsFS fs (charTxtPath root character) then
    match lookupFile fs (charTxtPath root character) with
    | some t => .ok (some (charWavPath root character, pyStrip t))
    | none => .error "IsADirectoryError"
  else
    .ok none

/-- Whether a filesystem entry is an immediate child of `root`; if so,
its name and whether it is a directory. -/
def entryAsChild (root : List String) : FSEntry → Option (String × Bool)
  | .dir p =>
    match p.getLast? with
    | some n => if p.dropLast = root then some (n, true) else none
    | none => none
  | .file p _ =>
    match p.getLast? with
    | some n => if p.dropLast = root then some (n, false) else none
    | none => none

/-- Embedding of `Path.iterdir()` over the character root: the immediate
children of `root` present in the filesystem, each with a flag telling
whether it is a directory. -/
def iterdirEntries (fs : FS) (root : List String) : List (String × Bool) :=
  fs.filterMap (entryAsChild root)

/-- Embedding of `TTSServer._scan_characters` (api_server.py
lines 90-102): every immediate subdirectory of the character root is
included, mapped to the single style tag list `["default"]`; entries
that are not directories are skipped. No reference-file check is made. -/
def scanCharacters (fs : FS) (root : List String) : List (String × List String) :=
  (iterdirEntries fs root).filterMap fun nd =>
    if nd.2 then some (nd.1, ["default"]) else none

/-- Embedding of the pydantic model `TTSRequest` (api_server.py
lines 19-32), with the same field defaults. `text` has no default in the
source (it is required); here it is a plain field. -/
structure TTSRequest : Type where
  text : String
  character : String := "default"
  emotion : String := "default"
  text_language : String := "多语种混合"
  format : String := "wav"
  top_k : ℚ := 50.0
  top_p : ℚ := 0.95
  batch_size : ℤ := 1
  speed : ℚ := 1.0
  temperature : ℚ := 0.7
  save_temp : Bool := false
  stream : Bool := false
deriving DecidableEq, Repr

/-- Embedding of the parameter configuration (api_server.py
lines 120-129). -/
structure ParamsConfig : Type where
  supported_languages : List String
  supported_formats : List String
deriving DecidableEq, Repr

/-- The built-in default configuration returned by `_load_params_config`
when no `params_config.json` artifact is present (api_server.py
lines 126-129). -/
def defaultParamsConfig : ParamsConfig :=
  { supported_languages := ["中文", "英文", "日文", "中英混合", "日英混合", "多语种混合"]
    supported_formats := ["wav", "mp3", "ogg"] }

/-- Hexadecimal digit value of a character, as `urllib.parse` accepts it
(both cases). -/
def hexVal (c : Char) : Option Nat :=
  if '0' ≤ c ∧ c ≤ '9' then some (c.toNat - '0'.toNat)
  else if 'a' ≤ c ∧ c ≤ 'f' then some (c.toNat - 'a'.toNat + 10)
  else if 'A' ≤ c ∧ c ≤ 'F' then some (c.toNat - 'A'.toNat + 10)
  else none

/-- Percent-decoding at byte level: a `%` followed by two hex digits
becomes that byte; a `%` not followed by two hex digits is kept
literally; every other character contributes its UTF-8 bytes. This is
the byte stream `urllib.parse.unquote` decodes. -/
def pctBytes : List Char → List UInt8
  | [] => []
  | '%' :: h1 :: h2 :: rest =>
    match hexVal h1, hexVal h2 with
    | some a, some b => UInt8.ofNat (a * 16 + b) :: pctBytes rest
    | _, _ => String.utf8EncodeChar '%' ++ pctBytes (h1 :: h2 :: rest)
  | c :: rest => String.utf8EncodeChar c ++ pctBytes rest

/-- Whether a byte is a UTF-8 continuation byte (`10xxxxxx`). -/
def isCont (b : UInt8) : Bool :=
  0x80 ≤ b.toNat && b.toNat < 0xC0

/-- One step of UTF-8 decoding with replacement: given the lead byte and
the remaining bytes, the decoded character (U+FFFD when the sequence is
invalid) and the number of continuation bytes consumed beyond the lead
byte (0 to 3). -/
def utf8Step (b : UInt8) (rest : List UInt8) : Char × Nat :=
  let n := b.toNat
  if n < 0x80 then (Char.ofNat n, 0)
  else if n < 0xC2 then (Char.ofNat 0xFFFD, 0)
  else if n < 0xE0 then
    match rest with
    | b2 :: _ =>
      if isCont b2 then (Char.ofNat ((n - 0xC0) * 0x40 + (b2.toNat - 0x80)), 1)
      else (Char.ofNat 0xFFFD, 0)
    | [] => (Char.ofNat 0xFFFD, 0)
  else if n < 0xF0 then
    match rest with
    | b2 :: b3 :: _ =>
      if isCont b2 && isCont b3 then
        let cp := (n - 0xE0) * 0x1000 + (b2.toNat - 0x80) * 0x40 + (b3.toNat - 0x80)
        if 0x800 ≤ cp && (cp < 0xD800 || 0xE000 ≤ cp) then (Char.ofNat cp, 2)
        else (Char.ofNat 0xFFFD, 0)
      else (Char.ofNat 0xFFFD, 0)
    | _ => (Char.ofNat 0xFFFD, 0)
  else if n < 0xF5 then
    match rest with
    | b2 :: b3 :: b4 :: _ =>
      if isCont b2 && isCont b3 && isCont b4 then
        let cp := (n - 0xF0) * 0x40000 + (b2.toNat - 0x80) * 0x1000
          + (b3.toNat - 0x80) * 0x40 + (b4.toNat - 0x80)
        if 0x10000 ≤ cp && cp < 0x110000 then (Char.ofNat cp, 3)
        else (Char.ofNat 0xFFFD, 0)
      else (Char.ofNat 0xFFFD, 0)
    | _ => (Char.ofNat 0xFFFD, 0)
  else (Char.ofNat 0xFFFD, 0)

/-- UTF-8 decoding with replacement of invalid sequences by U+FFFD,
the decoding mode `urllib.parse.unquote` uses; fuel-indexed so that the
recursion is structural (each step consumes at least one byte, so fuel
equal to the byte count never runs out). The exact number of replacement
characters emitted for a malformed sequence may differ from CPython in
corner cases; valid sequences decode identically. -/
def utf8DecodeReplaceAux : Nat → List UInt8 → List Char
  | _, [] => []
  | 0, _ :: _ => []
  | fuel + 1, b :: rest =>
    let s := utf8Step b rest
    s.1 :: utf8DecodeReplaceAux fuel (rest.drop s.2)

/-- UTF-8 decoding with replacement, at adequate fuel. -/
def utf8DecodeReplace (l : List UInt8) : List Char :=
  utf8DecodeReplaceAux l.length l

/-- Embedding of `urllib.parse.unquote` with its default arguments
(UTF-8, errors replace): percent-decode to bytes, then UTF-8 decode. -/
def pyUnquote (s : String) : String :=
  String.mk (utf8DecodeReplace (pctBytes s.data))

/-- The argument record of one call into `self.tts_engine.infer`
(api_server.py lines 170-176). `ref_file` is passed as the path of the
reference audio (the source passes its string rendering). -/
structure EngineInput : Type where
  ref_file : List String
  ref_text : String
  gen_text : String
  speed : ℚ
  remove_silence : Bool
deriving DecidableEq, Repr

/-- Observable outcome of one `/tts` request: HTTP status, the `detail`
field of the JSON error body (FastAPI renders a raised `HTTPException`
as `{"detail": <detail>}`), the list of calls made into the synthesis
engine, and the temporary artifact paths created and deleted while
serving the request. -/
structure Outcome : Type where
  status : Nat
  detail : Option String
  engineCalls : List EngineInput
  tempCreated : List String
  tempDeleted : List String
deriving DecidableEq, Repr

/-- String rendering of a starlette `HTTPException`, as `str(e)` produces
it (`"<status>: <detail>"`); used when the blanket `except` re-wraps a
caught `HTTPException`. -/
def strOfHTTPExc (code : Nat) (detail : String) : String :=
  toString code ++ ": " ++ detail

/-- The message of the `NameError` raised at api_server.py line 186:
`BackgroundTask` is referenced there but never imported (the imports at
lines 1-16 bind neither `starlette.background` nor `fastapi.background`),
so evaluating the `FileResponse(...)` argument list raises
`NameError("name \x27BackgroundTask\x27 is not defined")`. -/
def nameErrorMsg : String := "name \x27BackgroundTask\x27 is not defined"

/-- Embedding of the parameter-resolution step of `text_to_speech`
(api_server.py lines 144-151): on a GET call no body is bound
(`request is None`) and a `TTSRequest` is built from the percent-decoded
`text` query parameter and the `character` query parameter, every other
field keeping its default; on a POST call the structured body is used
as-is. -/
def resolveParams (request : Option TTSRequest) (text character : String) : TTSRequest :=
  match request with
  | some r => r
  | none => { text := pyUnquote text, character := character }

/-- Embedding of the `/tts` endpoint handler `text_to_speech`
(api_server.py lines 139-191), parameterised by the loaded configuration,
the filesystem, the character root, the synthesis engine, and the unique
temporary file name chosen by `tempfile.NamedTemporaryFile`.

Control flow follows the source exactly. The whole body sits in a
`try` block whose handler (lines 189-191) catches every `Exception`
including the `HTTPException(400, ...)` raised by the validation and
resolution checks at lines 155, 158 and 163, and re-raises
`HTTPException(500, str(e))`; a raised 400 therefore reaches the client
as status 500 with detail `"400: <message>"`. On the success path the
temporary file is created with `delete=False` and the engine runs, but
the `return FileResponse(...)` expression at lines 182-187 evaluates
`BackgroundTask(...)`, a name that is not bound, raising `NameError`
before the response is constructed; the handler turns it into a 500 and
the temporary file is never deleted. -/
def textToSpeech (cfg : ParamsConfig) (fs : FS) (root : List String)
    (engine : EngineInput → List Int × Nat) (tmpName : String)
    (request : Option TTSRequest) (text : String) (character : String) : Outcome :=
  let params := resolveParams request text character
  if params.text = "" then
    { status := 500, detail := some (strOfHTTPExc 400 "Text is required")
      engineCalls := [], tempCreated := [], tempDeleted := [] }
  else if !(cfg.supported_languages.contains params.text_language) then
    { status := 500
      detail := some (strOfHTTPExc 400 ("Unsupported language: " ++ params.text_language))
      engineCalls := [], tempCreated := [], tempDeleted := [] }
  else
    match getCharacterPaths fs root params.character with
    | .error e =>
      { status := 500, detail := some e
        engineCalls := [], tempCreated := [], tempDeleted := [] }
    | .ok none =>
      { status := 500
        detail := some (strOfHTTPExc 400 ("Character not found: " ++ params.character))
        engineCalls := [], tempCreated := [], tempDeleted := [] }
    | .ok (some (refAudio, refText)) =>
      let call : EngineInput :=
        { ref_file := refAudio, ref_text := refText
          gen_text := params.text, speed := params.speed, remove_silence := true }
      let _wav := engine call
      { status := 500, detail := some nameErrorMsg
        engineCalls := [call], tempCreated := [tmpName], tempDeleted := [] }

/-- Character root used by the concrete scenarios: a character `alice`
provisioned with both reference files, its reference text ending in a
newline that stripping removes. -/
def fsFix : FS :=
  [ .dir ["app", "characters"]
  , .dir ["app", "characters", "alice"]
  , .file ["app", "characters", "alice", "ref.wav"] "RIFFDATA"
  , .file ["app", "characters", "alice", "ref.txt"] "hello there\n" ]

/-- The character root path of the concrete scenarios. -/
def rootFix : List String := ["app", "characters"]

/-- A concrete synthesis engine for the scenarios: returns a fixed
non-empty waveform at 24 kHz. -/
def engineFix : EngineInput → List Int × Nat := fun _ => ([0, 1, 0], 24000)

/-- The valid scenario request of the spec: non-empty text, existing
character, supported language, wav format. -/
def reqValid : TTSRequest :=
  { text := "test phrase", character := "alice", text_language := "英文", format := "wav" }

/-- Outcome of serving the valid scenario request. -/
def outValid : Outcome :=
  textToSpeech defaultParamsConfig fsFix rootFix engineFix "tmp0.wav" (some reqValid) "" "default"

/-- Character root containing one subdirectory `empty` that has neither
`ref.wav` nor `ref.txt`, plus a stray regular file. -/
def fsC5 : FS :=
  [ .dir ["characters"]
  , .dir ["characters", "empty"]
  , .file ["characters", "notes.txt"] "not a character" ]

/-- Filesystem for the traversal scenario: the character root is
`/srv/characters`, and a file pair lives outside it at `/etc/secret`. -/
def fsC10 : FS :=
  [ .dir ["srv", "characters"]
  , .dir ["etc", "secret"]
  , .file ["etc", "secret", "ref.wav"] "RIFF"
  , .file ["etc", "secret", "ref.txt"] "stolen" ]

/-- A list that ends in `n` and whose `dropLast` is `r` is `r ++ [n]`. -/
lemma eq_append_singleton_of_getLast? {α : Type} {p r : List α} {n : α}
    (h1 : p.getLast? = some n) (h2 : p.dropLast = r) : p = r ++ [n] := by
  have hne : p ≠ [] := by
    intro h
    subst h
    simp at h1
  have h3 := List.dropLast_append_getLast hne
  rw [List.getLast?_eq_getLast p hne] at h1
  rw [← h3, h2]
  simp at h1
  rw [h1]

/-- C1: the claim says a request failing validation or character
resolution is answered with HTTP 400 and detail `Text is required`,
`Unsupported language: <value>` or `Character not found: <name>`. The
code raises exactly those `HTTPException(400, ...)`, but the blanket
`except Exception` at api_server.py lines 189-191 catches them and
re-raises `HTTPException(500, str(e))`: each scenario is in fact
answered with status 500 and the stringified original exception as
detail. This theorem evaluates the embedded handler at the three
failing scenarios of the spec. -/
theorem claimC1_validation_errors_become_500 :
    (textToSpeech defaultParamsConfig fsFix rootFix engineFix "tmp0.wav"
        (some { text := "", character := "alice" }) "" "default").status = 500
    ∧ (textToSpeech defaultParamsConfig fsFix rootFix engineFix "tmp0.wav"
        (some { text := "", character := "alice" }) "" "default").detail
      = some "400: Text is required"
    ∧ (textToSpeech defaultParamsConfig fsFix rootFix engineFix "tmp0.wav"
        (some { text := "x", character := "alice", text_language := "Klingon" }) "" "default").status
      = 500
    ∧ (textToSpeech defaultParamsConfig fsFix rootFix engineFix "tmp0.wav"
        (some { text := "x", character := "alice", text_language := "Klingon" }) "" "default").detail
      = some "400: Unsupported language: Klingon"
    ∧ (textToSpeech defaultParamsConfig fsFix rootFix engineFix "tmp0.wav"
        (some { text := "x", character := "bob" }) "" "default").status = 500
    ∧ (textToSpeech defaultParamsConfig fsFix rootFix engineFix "tmp0.wav"
        (some { text := "x", character := "bob" }) "" "default").detail
      = some "400: Character not found: bob" :=
  ⟨rfl, rfl, rfl, rfl, rfl, rfl⟩

/-- C2: the claim says every temporary encoded-audio file is deleted
exactly once after its bytes reach the transport layer. In the code the
deletion callback is `BackgroundTask(lambda: os.unlink(temp_file.name))`
at api_server.py line 186, but `BackgroundTask` is never imported, so a
`NameError` is raised before the `FileResponse` carrying the callback is
built; the temporary file (created with `delete=False`) is never
deleted. This theorem evaluates the embedded handler on the valid
scenario: one artifact is created and none is ever deleted. -/
theorem claimC2_artifact_never_deleted :
    outValid.tempCreated = ["tmp0.wav"]
    ∧ outValid.tempDeleted = []
    ∧ outValid.status = 500 :=
  ⟨rfl, rfl, rfl⟩

/-- C3: the claim says a fully valid request is answered 200 with the
encoded audio. Because the name `BackgroundTask` is unbound at
api_server.py line 186, the success path always raises `NameError`
before the response is constructed, and the blanket handler answers 500
with the `NameError` message; no request is ever answered 200. This
theorem evaluates the embedded handler on the valid scenario of the
spec (character `alice` present, text `test phrase`, language `英文`,
format `wav`): the engine does run, but the response is a 500. -/
theorem claimC3_success_path_returns_500 :
    outValid.status = 500
    ∧ outValid.detail = some nameErrorMsg
    ∧ outValid.engineCalls.length = 1 :=
  ⟨rfl, rfl, rfl⟩

/-- C4: for every request with empty text, and for every request whose
language is not in the configured supported set, the handler terminates
in a failure (status 500 after the blanket wrapping) without the
synthesis engine ever being invoked. -/
theorem claimC4_failure_before_engine (cfg : ParamsConfig) (fs : FS)
    (root : List String) (engine : EngineInput → List Int × Nat) (tmp : String)
    (request : Option TTSRequest) (text character : String)
    (h : (resolveParams request text character).text = ""
      ∨ cfg.supported_languages.contains (resolveParams request text character).text_language
          = false) :
    (textToSpeech cfg fs root engine tmp request text character).engineCalls = []
    ∧ (textToSpeech cfg fs root engine tmp request text character).status = 500 := by
  rcases h with h | h
  · constructor <;> simp [textToSpeech, h]
  · by_cases ht : (resolveParams request text character).text = ""
    · constructor <;> simp [textToSpeech, ht]
    · have h2 : (resolveParams request text character).text_language ∉ cfg.supported_languages := by
        simpa using h
      constructor <;> simp [textToSpeech, ht, h2]

/-- Witness for C4: the empty-text scenario terminates with no engine
call and status 500. -/
theorem claimC4_witness :
    (textToSpeech defaultParamsConfig fsFix rootFix engineFix "tmp0.wav"
      (some { text := "" }) "" "default").engineCalls = []
    ∧ (textToSpeech defaultParamsConfig fsFix rootFix engineFix "tmp0.wav"
      (some { text := "" }) "" "default").status = 500 :=
  claimC4_failure_before_engine defaultParamsConfig fsFix rootFix engineFix "tmp0.wav"
    (some { text := "" }) "" "default" (Or.inl rfl)

/-- C5 counterexample: the claim says `listCharacters` includes exactly
the names whose directory contains both reference files. In the code
`_scan_characters` never checks for the reference files: the character
root `fsC5` has one subdirectory `empty` with neither `ref.wav` nor
`ref.txt`, yet the scan includes it (mapped to `["default"]`), even
though resolution of `empty` fails. -/
theorem claimC5_counterexample :
    scanCharacters fsC5 ["characters"] = [("empty", ["default"])]
    ∧ existsFS fsC5 ["characters", "empty", "ref.wav"] = false
    ∧ existsFS fsC5 ["characters", "empty", "ref.txt"] = false
    ∧ getCharacterPaths fsC5 ["characters"] "empty" = .ok none :=
  ⟨rfl, rfl, rfl, rfl⟩

/-- C5 amended: `listCharacters` returns a mapping that includes exactly
the immediate subdirectory names of the character root, regardless of
whether the directory contains `ref.wav` or `ref.txt`, each mapped to
the single style tag `["default"]`; non-directory entries are
excluded. -/
theorem claimC5_scan_lists_all_subdirectories (fs : FS) (root : List String)
    (n : String) (tags : List String) :
    (n, tags) ∈ scanCharacters fs root
      ↔ FSEntry.dir (root ++ [n]) ∈ fs ∧ tags = ["default"] := by
  constructor
  · intro h
    rw [scanCharacters, List.mem_filterMap] at h
    obtain ⟨nd, hnd, hg⟩ := h
    split at hg
    case isTrue hd =>
      rw [Option.some_inj, Prod.mk.injEq] at hg
      obtain ⟨hgn, hgt⟩ := hg
      rw [iterdirEntries, List.mem_filterMap] at hnd
      obtain ⟨e, he, hf⟩ := hnd
      cases e with
      | dir p =>
        simp only [entryAsChild] at hf
        rcases hgl : p.getLast? with _ | m
        · rw [hgl] at hf
          exact absurd hf (by simp)
        · simp only [hgl] at hf
          split at hf
          next hdl =>
            rw [Option.some_inj] at hf
            have hm : m = n := by
              rw [← hgn, ← hf]
            have hp : p = root ++ [n] :=
              eq_append_singleton_of_getLast? (hm ▸ hgl) hdl
            exact ⟨hp ▸ he, hgt.symm⟩
          next => exact absurd hf (by simp)
      | file p c =>
        simp only [entryAsChild] at hf
        rcases hgl : p.getLast? with _ | m
        · rw [hgl] at hf
          exact absurd hf (by simp)
        · simp only [hgl] at hf
          split at hf
          next =>
            rw [Option.some_inj] at hf
            rw [← hf] at hd
            simp at hd
          next => exact absurd hf (by simp)
    case isFalse => exact absurd hg (by simp)
  · rintro ⟨hmem, rfl⟩
    rw [scanCharacters, List.mem_filterMap]
    refine ⟨(n, true), ?_, rfl⟩
    rw [iterdirEntries, List.mem_filterMap]
    exact ⟨.dir (root ++ [n]), hmem, by simp [entryAsChild]⟩

/-- Witness for C5: in the counterexample filesystem, the subdirectory
`empty` is listed with tag list `["default"]`. -/
theorem claimC5_witness :
    ("empty", ["default"]) ∈ scanCharacters fsC5 ["characters"] :=
  (claimC5_scan_lists_all_subdirectories fsC5 ["characters"] "empty" ["default"]).mpr
    ⟨by decide, rfl⟩

/-- C6: `resolve(name)` (the embedded `_get_character_paths`) returns
Absent (`(None, None)`) when the probed character directory is missing
or lacks `ref.wav` or `ref.txt`; when both reference files exist it
returns the reference audio path together with the full contents of
`ref.txt` read as UTF-8 and trimmed of surrounding whitespace. -/
theorem claimC6_resolve_contract (fs : FS) (root : List String) (name : String) :
    ((existsFS fs (charDirPath root name) = false
        ∨ existsFS fs (charWavPath root name) = false
        ∨ existsFS fs (charTxtPath root name) = false) →
      getCharacterPaths fs root name = .ok none)
    ∧ (∀ t, existsFS fs (charDirPath root name) = true →
        existsFS fs (charWavPath root name) = true →
        lookupFile fs (charTxtPath root name) = some t →
        getCharacterPaths fs root name
          = .ok (some (charWavPath root name, pyStrip t))) := by
  constructor
  · intro h
    rcases h with h | h | h <;> simp [getCharacterPaths, h]
  · intro t h1 h2 h3
    have h4 : existsFS fs (charTxtPath root name) = true := by
      simp [existsFS, h3]
    simp [getCharacterPaths, h1, h2, h4, h3]

/-- Witness for C6: resolving `alice` in the scenario filesystem yields
the reference audio path and the stripped reference text. -/
theorem claimC6_witness :
    getCharacterPaths fsFix rootFix "alice"
      = .ok (some (["app", "characters", "alice", "ref.wav"], "hello there")) :=
  (claimC6_resolve_contract fsFix rootFix "alice").2 "hello there\n" rfl rfl rfl

/-- C7: the two ingress shapes converge: for every text value and
character name, the GET-style call (no body; `text` percent-decoded)
constructs a request equal to the structured body object carrying the
decoded text, the character, and the default value of every other
field. -/
theorem claimC7_ingress_shapes_converge (t c : String) :
    resolveParams none t c
      = resolveParams (some { text := pyUnquote t, character := c }) "" "default"
    ∧ resolveParams none t c
      = { text := pyUnquote t, character := c, emotion := "default",
          text_language := "多语种混合", format := "wav", top_k := 50.0, top_p := 0.95,
          batch_size := 1, speed := 1.0, temperature := 0.7, save_temp := false,
          stream := false } :=
  ⟨rfl, rfl⟩

/-- C8: every request reaching the synthesis stage invokes the engine
exactly once, with exactly the resolved reference audio path, the
resolved reference text, the target text of the request, the speed of
the request, and the fixed directive to remove silence. -/
theorem claimC8_engine_invocation_params (cfg : ParamsConfig) (fs : FS)
    (root : List String) (engine : EngineInput → List Int × Nat) (tmp : String)
    (req : TTSRequest) (wav : List String) (rtext : String)
    (h1 : req.text ≠ "")
    (h2 : cfg.supported_languages.contains req.text_language = true)
    (h3 : getCharacterPaths fs root req.character = .ok (some (wav, rtext))) :
    (textToSpeech cfg fs root engine tmp (some req) "" "default").engineCalls
      = [{ ref_file := wav, ref_text := rtext, gen_text := req.text,
           speed := req.speed, remove_silence := true }] := by
  have h2m : req.text_language ∈ cfg.supported_languages := by
    simpa using h2
  simp [textToSpeech, resolveParams, h1, h2m, h3]

/-- Witness for C8: the valid scenario request invokes the engine with
the reference audio of `alice`, its stripped reference text, the target
text, the default speed, and silence removal on. -/
theorem claimC8_witness :
    (textToSpeech defaultParamsConfig fsFix rootFix engineFix "tmp0.wav"
        (some reqValid) "" "default").engineCalls
      = [{ ref_file := ["app", "characters", "alice", "ref.wav"],
           ref_text := "hello there", gen_text := "test phrase",
           speed := 1.0, remove_silence := true }] :=
  claimC8_engine_invocation_params defaultParamsConfig fsFix rootFix engineFix "tmp0.wav"
    reqValid ["app", "characters", "alice", "ref.wav"] "hello there"
    (by decide) rfl rfl

/-- C9: a request constructed with only its required text field carries
exactly the default values of the source: character `default`, topK 50,
topP 0.95 (= 19/20), batchSize 1, speed 1, temperature 0.7 (= 7/10). -/
theorem claimC9_request_defaults (t : String) :
    ({ text := t } : TTSRequest)
      = { text := t, character := "default", emotion := "default",
          text_language := "多语种混合", format := "wav", top_k := 50.0, top_p := 0.95,
          batch_size := 1, speed := 1.0, temperature := 0.7, save_temp := false,
          stream := false }
    ∧ ({ text := t } : TTSRequest).top_k = 50
    ∧ ({ text := t } : TTSRequest).top_p = 19 / 20
    ∧ ({ text := t } : TTSRequest).batch_size = 1
    ∧ ({ text := t } : TTSRequest).speed = 1
    ∧ ({ text := t } : TTSRequest).temperature = 7 / 10
    ∧ ({ text := t } : TTSRequest).character = "default" := by
  refine ⟨rfl, ?_, ?_, rfl, ?_, ?_, rfl⟩ <;> norm_num

/-- C10: character resolution joins the caller-supplied name to the
character root with no sanitisation: for every relative name, including
names with separators and `..` segments, the probed paths are
`characterRoot/name/ref.wav` and `characterRoot/name/ref.txt`; a
crafted name therefore resolves outside the root, as witnessed by
`../../etc/secret` against root `/srv/characters`, whose probed audio
path resolves to `/etc/secret/ref.wav` and whose `ref.txt` outside the
root is read and returned. -/
theorem claimC10_no_name_sanitisation :
    (∀ (root : List String) (name : String), pyIsAbsolute name = false →
        charWavPath root name = root ++ (pySplitSegs name ++ ["ref.wav"])
        ∧ charTxtPath root name = root ++ (pySplitSegs name ++ ["ref.txt"]))
    ∧ pySplitSegs "../../etc/secret" = ["..", "..", "etc", "secret"]
    ∧ normSegs (charWavPath ["srv", "characters"] "../../etc/secret")
        = ["etc", "secret", "ref.wav"]
    ∧ (normSegs (charWavPath ["srv", "characters"] "../../etc/secret")).take 2
        ≠ ["srv", "characters"]
    ∧ getCharacterPaths fsC10 ["srv", "characters"] "../../etc/secret"
        = .ok (some (charWavPath ["srv", "characters"] "../../etc/secret", "stolen")) := by
  refine ⟨?_, rfl, rfl, by decide, rfl⟩
  intro root name h
  constructor <;> simp [charWavPath, charTxtPath, charDirPath, pathJoin, h, List.append_assoc]

/-- Witness for C10: for the relative name `../x` the probed audio path
is the unsanitised juxtaposition of root, name segments and `ref.wav`. -/
theorem claimC10_witness :
    charWavPath ["a"] "../x" = ["a", "..", "x", "ref.wav"] :=
  (claimC10_no_name_sanitisation.1 ["a"] "../x" rfl).1
